import Mathlib

/-!
Shallow embedding of the VoiceFlow job-processing core: the job model
(pkg/models/job.go), the in-memory queue and the RabbitMQ close path
(pkg/queue), the in-memory / Redis / hybrid stores (pkg/storage), the
audio splitter and the Whisper retry loop (pkg/transcriber), and the
finalisation the worker performs (pkg/worker/worker.go).

Go conventions used throughout the embedding:
* a Go `error` result is `Option String` (`none` = nil error) or
  `Except String α` for fallible lookups;
* a Go operation that can panic (close of a closed channel, send on a
  closed channel) returns `GoResult`;
* `time.Time` is a `Nat` unix timestamp whose zero value `0` is the Go
  zero time (`IsZero`);
* float64 durations are modelled by `ℚ`; on the integral values the
  claims quantify over, float64 arithmetic is exact, so `ℚ` is faithful.
-/

namespace VoiceFlow

/-- Job status (pkg/models/job.go): pending, processing, completed, failed. -/
inductive JobStatus where
  | pending
  | processing
  | completed
  | failed
deriving DecidableEq, Repr

/-- WordDetail (pkg/models/job.go): word, definition, example sentence. -/
structure WordDetail where
  word : String
  definition : String
  exampleSentence : String
deriving DecidableEq, Repr

/-- TranscriptionJob (pkg/models/job.go).  `deliveryTag` (uint64) and
`rabbitMQDelivery` (a pointer, here `Option Unit`) carry the broker
acknowledgement metadata; both are tagged json:"-" in the source and are
therefore dropped by JSON serialisation.  `createdAt`/`completedAt` are
unix timestamps with 0 as the Go zero time. -/
structure TranscriptionJob where
  jobID : String
  filename : String
  filePath : String
  status : JobStatus
  progress : Int
  result : String
  subtitlePath : String
  vttPath : String
  bilingualSRTPath : String
  bilingualVTTPath : String
  language : String
  duration : ℚ
  errorMessage : String
  vocabulary : List String
  vocabDetail : List WordDetail
  createdAt : Nat
  completedAt : Nat
  deliveryTag : Nat
  rabbitMQDelivery : Option Unit
deriving DecidableEq, Repr

/-- Result of a Go operation that may panic. -/
inductive GoResult (α : Type) where
  | ok (val : α)
  | panicked
deriving DecidableEq, Repr

/-! ## In-memory queue (src/unnamed/part_006)

`MemoryQueue` wraps a single buffered channel `queue chan *TranscriptionJob`.
The channel is modelled by its buffer contents, its capacity and a closed
flag. -/

/-- MemoryQueue state: the buffered channel `queue`. -/
structure MemoryQueue where
  buffer : List TranscriptionJob
  capacity : Nat
  closed : Bool
deriving DecidableEq, Repr

/-- NewMemoryQueue: a fresh open channel of the given capacity. -/
def NewMemoryQueue (bufferSize : Nat) : MemoryQueue :=
  { buffer := [], capacity := bufferSize, closed := false }

/-- Enqueue: `select { case mq.queue <- job: return nil; default: return err }`.
Go channel semantics: a send on a closed channel is ready (and panics when
committed to), so when the channel is closed the select takes the send case
and panics; the `default` branch is reached only when the send is not ready,
i.e. the buffer of an open channel is full. -/
def MemoryQueue.Enqueue (mq : MemoryQueue) (job : TranscriptionJob) :
    GoResult (MemoryQueue × Option String) :=
  if mq.closed then .panicked
  else if mq.buffer.length < mq.capacity then
    .ok ({ mq with buffer := mq.buffer ++ [job] }, none)
  else .ok (mq, some "队列已满")

/-- Dequeue: `job, ok := <-mq.queue`; a receive takes the oldest buffered
element, and on an empty closed channel yields ok=false, turned into an
error.  (A receive on an empty open channel blocks; blocking is outside
the claims settled here and is represented by `none`.) -/
def MemoryQueue.Dequeue (mq : MemoryQueue) :
    Option (MemoryQueue × Except String TranscriptionJob) :=
  match mq.buffer with
  | job :: rest => some ({ mq with buffer := rest }, .ok job)
  | [] => if mq.closed then some (mq, .error "队列已关闭") else none

/-- Close: `close(mq.queue)`.  Closing an already-closed channel panics. -/
def MemoryQueue.Close (mq : MemoryQueue) : GoResult (MemoryQueue × Option String) :=
  if mq.closed then .panicked
  else .ok ({ mq with closed := true }, none)

/-! ## RabbitMQ queue close path (src/pkg/queue/rabbitmq.go, lines 295-326)

Only the state consulted by `Close` is modelled: the `closed chan struct{}`
signal channel, as a flag.  Tearing down consumer/publisher connections has
no observable effect on the returned error. -/

/-- The part of RabbitMQQueue state that `Close` reads and writes. -/
structure RabbitMQQueueState where
  closedSignal : Bool
deriving DecidableEq, Repr

/-- RabbitMQQueue.Close: `select { case <-rq.closed: return nil; default: close(rq.closed); ...; return nil }`.
A receive on the already-closed signal channel is ready, so a second call
returns nil immediately; the first call closes the signal channel and also
returns nil. -/
def RabbitMQQueue.Close (rq : RabbitMQQueueState) : RabbitMQQueueState × Option String :=
  if rq.closedSignal then (rq, none)
  else ({ rq with closedSignal := true }, none)

/-! ## In-memory job store (src/unnamed/part_003, first file: JobStore)

The Go `map[string]*TranscriptionJob` is modelled by an association list in
which the most recent binding for a key comes first. -/

/-- First-match association-list lookup: the model of Go map indexing. -/
def lookupJob : List (String × TranscriptionJob) → String → Option TranscriptionJob
  | [], _ => none
  | (k, v) :: rest, jobID => if k = jobID then some v else lookupJob rest jobID

/-- JobStore.Save: `js.jobs[job.JobID] = job`; always returns nil. -/
def JobStore.Save (jobs : List (String × TranscriptionJob)) (job : TranscriptionJob) :
    List (String × TranscriptionJob) × Option String :=
  ((job.jobID, job) :: jobs, none)

/-- JobStore.Get: map lookup; missing key yields the not-found error. -/
def JobStore.Get (jobs : List (String × TranscriptionJob)) (jobID : String) :
    Except String TranscriptionJob :=
  match lookupJob jobs jobID with
  | some job => .ok job
  | none => .error ("任务不存在: " ++ jobID)

/-- JobStore.Update: look up, apply the mutator in place, nil on success. -/
def JobStore.Update (jobs : List (String × TranscriptionJob)) (jobID : String)
    (updateFn : TranscriptionJob → TranscriptionJob) :
    List (String × TranscriptionJob) × Option String :=
  match lookupJob jobs jobID with
  | some job => ((jobID, updateFn job) :: jobs, none)
  | none => (jobs, some ("任务不存在: " ++ jobID))

/-! ## Redis job store (src/unnamed/part_004)

Save serialises the job with encoding/json and stores the blob under
`voiceflow:job:<id>`, then ZAdds the id to the `voiceflow:jobs:index`
sorted set scored by `createdAt`.  Get fetches the blob and deserialises
it.  JSON round-tripping restores every serialised field exactly and
resets the two json:"-" fields to their zero values. -/

/-- Effect of json.Marshal followed by json.Unmarshal on a job: the fields
tagged json:"-" (DeliveryTag, RabbitMQDelivery) are dropped and come back
as zero values; every other field survives unchanged. -/
def marshalRoundTrip (j : TranscriptionJob) : TranscriptionJob :=
  { j with deliveryTag := 0, rabbitMQDelivery := none }

/-- Redis key layout: "voiceflow:job:" ++ jobID. -/
def redisKey (jobID : String) : String := "voiceflow:job:" ++ jobID

/-- RedisJobStore state: the stored blobs (already-deserialised form) and
the sorted-set index entries (member, score). -/
structure RedisState where
  data : List (String × TranscriptionJob)
  index : List (String × Int)
deriving DecidableEq, Repr

/-- RedisJobStore.Save: SET key (json.Marshal job) with TTL, then ZAdd the
index.  TTL expiry is not modelled (claims do not depend on it). -/
def RedisJobStore.Save (st : RedisState) (job : TranscriptionJob) :
    RedisState × Option String :=
  ({ data := (redisKey job.jobID, marshalRoundTrip job) :: st.data,
     index := (job.jobID, (job.createdAt : Int)) :: st.index }, none)

/-- RedisJobStore.Get: GET key, json.Unmarshal; redis.Nil becomes the
not-found error. -/
def RedisJobStore.Get (st : RedisState) (jobID : String) :
    Except String TranscriptionJob :=
  match lookupJob st.data (redisKey jobID) with
  | some job => .ok job
  | none => .error ("任务不存在: " ++ jobID)

/-- RedisJobStore.Update: Get, apply the mutator, Save the result. -/
def RedisJobStore.Update (st : RedisState) (jobID : String)
    (updateFn : TranscriptionJob → TranscriptionJob) : RedisState × Option String :=
  match RedisJobStore.Get st jobID with
  | .error e => (st, some e)
  | .ok job => RedisJobStore.Save st (updateFn job)

/-! ## Hybrid store (src/unnamed/part_003, second file: HybridJobStore)

The hot tier (redis) and cold tier (db) are `Store` values; at the level of
the claims settled here each tier is its map of contents, and the outcome
of a hot-tier call (which in the real system can fail on a connection
error) is injected as a boolean `redisFails`.  The bounded sync queue
(capacity 100) is the contents of the buffered channel. -/

/-- HybridJobStore state: hot-tier contents, cold-tier contents, and the
contents of the `syncQueue` buffered channel. -/
structure HybridState where
  redis : List (String × TranscriptionJob)
  db : List (String × TranscriptionJob)
  syncQueue : List TranscriptionJob
deriving DecidableEq, Repr

/-- Capacity of the sync queue channel: `make(chan *TranscriptionJob, 100)`. -/
def syncQueueCap : Nat := 100

/-- The Update of a tier: read the current record, apply the mutator, write it
back; not-found is an error.  (Both backing stores implement Update as
get-then-mutate-then-save.) -/
def tierUpdate (tier : List (String × TranscriptionJob)) (jobID : String)
    (updateFn : TranscriptionJob → TranscriptionJob) :
    Except String (List (String × TranscriptionJob)) :=
  match lookupJob tier jobID with
  | some job => .ok ((jobID, updateFn job) :: tier)
  | none => .error ("任务不存在: " ++ jobID)

/-- asyncSyncToDB (part_003 lines 239-250): non-blocking send onto the
sync queue; when the queue is full, fall back to a synchronous db.Save
whose error is logged and swallowed. -/
def HybridJobStore.asyncSyncToDB (st : HybridState) (job : TranscriptionJob) : HybridState :=
  if st.syncQueue.length < syncQueueCap then
    { st with syncQueue := st.syncQueue ++ [job] }
  else
    { st with db := (job.jobID, job) :: st.db }

/-- HybridJobStore.Save (part_003 lines 114-127): write the hot tier (a
failure is logged and ignored); if the status of the job is terminal, hand it
to asyncSyncToDB; always return nil. -/
def HybridJobStore.Save (redisFails : Bool) (st : HybridState) (job : TranscriptionJob) :
    HybridState × Option String :=
  let st1 := if redisFails then st
             else { st with redis := (job.jobID, job) :: st.redis }
  let st2 := if job.status = .completed ∨ job.status = .failed then
               HybridJobStore.asyncSyncToDB st1 job
             else st1
  (st2, none)

/-- HybridJobStore.Update (part_003 lines 157-173): update the hot tier;
on a hot-tier failure fall back to updating the cold tier directly and
return its result; on success re-read the record from the hot tier and,
when it is terminal, hand it to asyncSyncToDB. -/
def HybridJobStore.Update (redisFails : Bool) (st : HybridState) (jobID : String)
    (updateFn : TranscriptionJob → TranscriptionJob) : HybridState × Option String :=
  let redisResult : Except String (List (String × TranscriptionJob)) :=
    if redisFails then .error "redis 连接失败" else tierUpdate st.redis jobID updateFn
  match redisResult with
  | .error _ =>
    match tierUpdate st.db jobID updateFn with
    | .ok db2 => ({ st with db := db2 }, none)
    | .error e => (st, some e)
  | .ok redis2 =>
    let st1 := { st with redis := redis2 }
    match lookupJob redis2 jobID with
    | some job =>
      if job.status = .completed ∨ job.status = .failed then
        (HybridJobStore.asyncSyncToDB st1 job, none)
      else (st1, none)
    | none => (st1, none)

/-! ## Hybrid store sync worker (src/unnamed/part_003, lines 254-310)

The worker loops over a three-way select: receive from the sync queue,
the 5-second ticker, or the stop signal.  One select commitment is one
step; the chosen branch is the nondeterministic choice of the scheduler (a
branch can only be chosen when it is ready).  `flushed` records the jobs
written to the cold tier by batchSave, in write order.  The ok=false arm of the receive (channel closed) is dead code: nothing ever closes
`syncQueue`, so it is not a reachable branch. -/

/-- The three select branches of syncWorker. -/
inductive SyncBranch where
  | recv
  | tick
  | stop
deriving DecidableEq, Repr

/-- Sync-worker state: the accumulated batch, the sync-queue channel
contents, the cold-tier write log, and whether the worker has returned. -/
structure SyncWorkerState where
  batch : List TranscriptionJob
  queue : List TranscriptionJob
  flushed : List TranscriptionJob
  exited : Bool
deriving DecidableEq, Repr

/-- One select commitment of syncWorker.  recv: pop a job from the queue,
append it to the batch, flush when the batch reaches 50.  tick: flush a
non-empty batch.  stop: flush the batch and return.  A recv on an empty
queue is not ready and leaves the state unchanged. -/
def syncWorkerStep (st : SyncWorkerState) (br : SyncBranch) : SyncWorkerState :=
  if st.exited then st else
  match br with
  | .recv =>
    match st.queue with
    | [] => st
    | job :: rest =>
      let batch2 := st.batch ++ [job]
      if 50 ≤ batch2.length then
        { st with queue := rest, batch := [], flushed := st.flushed ++ batch2 }
      else
        { st with queue := rest, batch := batch2 }
  | .tick =>
    if st.batch.length > 0 then
      { st with batch := [], flushed := st.flushed ++ st.batch }
    else st
  | .stop =>
    { st with flushed := st.flushed ++ st.batch, exited := true }

/-- A run of the sync worker under the branch choices of a scheduler. -/
def syncWorkerRun (st : SyncWorkerState) : List SyncBranch → SyncWorkerState
  | [] => st
  | br :: rest => syncWorkerRun (syncWorkerStep st br) rest

/-! ## Audio splitter (src/unnamed/part_009, AudioSplitter.Split lines 33-93)

The duration reported by ffprobe is an input (the only use the splitter makes of
the media file); ffmpeg segment extraction is modelled as succeeding.
Segment file paths are not modelled (no claim mentions them). -/

/-- A segment as computed by Split: index, start and end in seconds. -/
structure SegmentQ where
  index : Nat
  start : ℚ
  endSec : ℚ
deriving DecidableEq, Repr

/-- NewAudioSplitter: non-positive segment durations are replaced by the
600-second default. -/
def NewAudioSplitter (segmentDuration : Int) : Nat :=
  if segmentDuration ≤ 0 then 600 else segmentDuration.toNat

/-- AudioSplitter.Split: segmentCount = int(duration)/L + 1; a source no
longer than one segment is returned whole as the single segment 0;
otherwise segment i spans [i*L, min((i+1)*L, duration)].  The Go int(x)
truncation on the non-negative durations involved is floor-then-toNat. -/
def AudioSplitter.Split (segmentDuration : Nat) (duration : ℚ) : List SegmentQ :=
  let segmentCount : Nat := (⌊duration⌋).toNat / segmentDuration + 1
  if duration ≤ (segmentDuration : ℚ) then
    [{ index := 0, start := 0, endSec := duration }]
  else
    (List.range segmentCount).map fun i =>
      let start : ℚ := ((i * segmentDuration : ℕ) : ℚ)
      let endRaw : ℚ := start + (segmentDuration : ℚ)
      { index := i, start := start,
        endSec := if duration < endRaw then duration else endRaw }

/-! ## Whisper retry loop (src/pkg/transcriber/whisper.go, lines 112-141)

TranscribeWithRetry is driven by three oracles: the outcome of the i-th
Transcribe call, whether ctx.Err() is non-nil at the check made after a
failed attempt i, and whether ctx.Done() fires during the backoff wait
that follows attempt i.  The trace records how many times the remote
service was invoked, which backoff waits completed in full (a wait cut
short by cancellation never precedes another attempt and is not
recorded), and the final outcome. -/

/-- Outcome of one Transcribe call against the remote service. -/
inductive AttemptOutcome where
  | success (text : String)
  | failure (msg : String)
deriving DecidableEq, Repr

/-- Final outcome of TranscribeWithRetry. -/
inductive RetryOutcome where
  | ok (text : String)
  | cancelled
  | exhausted (lastErr : Option String)
deriving DecidableEq, Repr

/-- Observable trace of one TranscribeWithRetry call: number of remote
invocations, completed backoff waits in seconds (in order), outcome. -/
structure RetryTrace where
  calls : Nat
  waits : List Nat
  outcome : RetryOutcome
deriving DecidableEq, Repr

/-- The retry loop from iteration i with fuel = maxRetries - i remaining
iterations: call Transcribe; success returns the text; on failure, return
cancelled if ctx.Err() is set; otherwise, when another attempt remains,
wait 2^i seconds (cancellable) and continue; after the last attempt
return the exhaustion error carrying the last error. -/
def retryLoop (transcribe : Nat → AttemptOutcome) (ctxErrAfter : Nat → Bool)
    (ctxDoneInWait : Nat → Bool) (maxRetries : Nat) :
    Nat → Nat → Option String → RetryTrace
  | 0, _, lastErr => { calls := 0, waits := [], outcome := .exhausted lastErr }
  | fuel + 1, i, _ =>
    match transcribe i with
    | .success t => { calls := 1, waits := [], outcome := .ok t }
    | .failure e =>
      if ctxErrAfter i then { calls := 1, waits := [], outcome := .cancelled }
      else if i < maxRetries - 1 then
        if ctxDoneInWait i then { calls := 1, waits := [], outcome := .cancelled }
        else
          let rest := retryLoop transcribe ctxErrAfter ctxDoneInWait maxRetries fuel (i + 1) (some e)
          { calls := rest.calls + 1, waits := 2 ^ i :: rest.waits, outcome := rest.outcome }
      else { calls := 1, waits := [], outcome := .exhausted (some e) }

/-- WhisperClient.TranscribeWithRetry: run the loop from i = 0 with a nil
last error. -/
def WhisperClient.TranscribeWithRetry (transcribe : Nat → AttemptOutcome)
    (ctxErrAfter ctxDoneInWait : Nat → Bool) (maxRetries : Nat) : RetryTrace :=
  retryLoop transcribe ctxErrAfter ctxDoneInWait maxRetries maxRetries 0 none

/-! ## Engine result collection and merge (src/pkg/transcriber/engine.go
lines 89-124 and src/pkg/transcriber/whisper.go second file lines 237-265)

Both drafts of Transcribe collect |S| results from the result channel.
The channel delivers results in arrival order, which the concurrent
segment processors do not constrain; the collector is therefore a
function of the arrival-ordered result list.  Per result: an error is
appended to the `errors` slice (arrival order), a success is recorded in
the index-keyed results map.  Afterwards: any error makes Transcribe
return a formatted error built from errors[0]; otherwise the texts are
merged in index order. -/

/-- A ProcessResult as passed on the result channel: segment index, text,
and optional error. -/
structure ProcessResult where
  segmentIndex : Nat
  text : String
  error : Option String
deriving DecidableEq, Repr

/-- Projection of one result onto the `errors` slice entry it contributes
(index plus error message), if any. -/
def errEntry (r : ProcessResult) : Option (Nat × String) :=
  r.error.map fun e => (r.segmentIndex, e)

/-- One collector iteration (body of the for-range loop over the result
channel): an error is appended to the errors slice, a success is recorded
in the results map. -/
def collectStep (acc : List (Nat × String) × List (Nat × String)) (r : ProcessResult) :
    List (Nat × String) × List (Nat × String) :=
  match r.error with
  | some e => (acc.1, acc.2 ++ [(r.segmentIndex, e)])
  | none => (acc.1 ++ [(r.segmentIndex, r.text)], acc.2)

/-- The collector loop: fold over the arrival-ordered results, building
the success map (assoc list keyed by segment index) and the errors slice
in arrival order. -/
def collectLoop (arrivals : List ProcessResult) :
    List (Nat × String) × List (Nat × String) :=
  arrivals.foldl collectStep ([], [])

/-- First-match lookup in the success map (Go map indexing; each index is
produced at most once by the fan-out). -/
def lookupText : List (Nat × String) → Nat → String
  | [], _ => ""
  | (k, v) :: rest, idx => if k = idx then v else lookupText rest idx

/-- mergeResults / mergeTextResults: sort the present indices ascending
(sort.Ints) and concatenate the texts, writing a single space before
every segment whose index is positive. -/
def mergeResults (results : List (Nat × String)) : String :=
  let indices := (results.map (·.1)).insertionSort (· ≤ ·)
  indices.foldl
    (fun acc idx => (if 0 < idx then acc ++ " " else acc) ++ lookupText results idx)
    ""

/-- The decision Transcribe makes after collection (step 7 of both
drafts): with a non-empty errors slice, return an error carrying
errors[0]; otherwise return the merged text. -/
def transcribeCollect (arrivals : List ProcessResult) : Except (Nat × String) String :=
  match collectLoop arrivals with
  | (results, []) => .ok (mergeResults results)
  | (_, e :: _) => .error e

/-! ## Worker job finalisation (src/pkg/worker/worker.go, processJob
lines 82-151)

processJob writes to the store through Update mutators: first
{status := processing, progress := 0}, then one progress write per
progress callback, and finally the terminal write chosen by the outcome
of the engine.  The worker is the only writer for its job, so the record it
leaves behind is the composition of those mutators applied to the stored
record. -/

/-- The successful engine result (whisper.go draft: text plus subtitle
paths). -/
structure EngineResult where
  text : String
  subtitlePath : String
  vttPath : String
deriving DecidableEq, Repr

/-- The job record after processJob returns, as a function of the stored
record at dequeue time, the progress values the engine reported, the
engine outcome, and the wall-clock time `now` (time.Now() at the terminal
write; the zero value 0 never occurs as a real timestamp). -/
def Worker.processJobFinal (job : TranscriptionJob) (progressUpdates : List Int)
    (engineOutcome : Except String EngineResult) (now : Nat) : TranscriptionJob :=
  let j1 := { job with status := JobStatus.processing, progress := 0 }
  let j2 := progressUpdates.foldl (fun j p => { j with progress := p }) j1
  match engineOutcome with
  | .error e =>
    { j2 with status := JobStatus.failed, errorMessage := e, completedAt := now }
  | .ok r =>
    { j2 with
      status := JobStatus.completed
      result := r.text
      subtitlePath := r.subtitlePath
      vttPath := r.vttPath
      progress := 100
      completedAt := now }

/-! ## Concrete fixtures used by witnesses and counterexamples -/

/-- A concrete pending job with empty metadata. -/
def job0 : TranscriptionJob :=
  { jobID := "job-1", filename := "a.mp3", filePath := "/uploads/a.mp3",
    status := .pending, progress := 0, result := "", subtitlePath := "",
    vttPath := "", bilingualSRTPath := "", bilingualVTTPath := "",
    language := "", duration := 0, errorMessage := "", vocabulary := [],
    vocabDetail := [], createdAt := 1, completedAt := 0, deliveryTag := 0,
    rabbitMQDelivery := none }

/-- A progress-only mutator: the kind the progress callback of the worker
issues; it never changes the status. -/
def bumpProgress (j : TranscriptionJob) : TranscriptionJob := { j with progress := 50 }

/-- A hybrid state holding job-1 as pending in both tiers. -/
def hybridSt0 : HybridState :=
  { redis := [("job-1", job0)], db := [("job-1", job0)], syncQueue := [] }

/-- job0 with broker acknowledgement metadata attached. -/
def jobWithTag : TranscriptionJob := { job0 with deliveryTag := 7, rabbitMQDelivery := some () }

/-- An empty Redis state. -/
def redisSt0 : RedisState := { data := [], index := [] }

/-- An errored result for segment 2. -/
def resA : ProcessResult := { segmentIndex := 2, text := "", error := some "boom2" }

/-- An errored result for segment 1. -/
def resB : ProcessResult := { segmentIndex := 1, text := "", error := some "boom1" }

/-- A remote service that fails every attempt. -/
def alwaysFailOracle : Nat → AttemptOutcome := fun _ => .failure "超时"

/-- Cancellation observed at every post-attempt check from attempt 1 on. -/
def cancelFromOne : Nat → Bool := fun j => decide (1 ≤ j)

/-- Cancellation never fires during a backoff wait. -/
def neverInWait : Nat → Bool := fun _ => false

/-- A successful engine result with empty text. -/
def emptyEngineResult : EngineResult := { text := "", subtitlePath := "", vttPath := "" }

/-! ## Theorems -/

/-- Claim C10: HybridJobStore.Save returns nil for every job, every store
state and every outcome of the hot-tier write — a hot-tier failure is
swallowed and never surfaced to the caller. -/
theorem C10_hybrid_save_returns_nil (redisFails : Bool) (st : HybridState)
    (job : TranscriptionJob) : (HybridJobStore.Save redisFails st job).2 = none := rfl

/-- Claim C5 counterexample: the first Close of a fresh in-memory queue
succeeds, but a second Close panics (close of a closed channel) instead
of returning normally. -/
theorem C5_memory_double_close_panics :
    MemoryQueue.Close (NewMemoryQueue 10) =
      .ok ({ buffer := [], capacity := 10, closed := true }, none)
    ∧ MemoryQueue.Close { buffer := [], capacity := 10, closed := true } = .panicked := by
  decide

/-- Claim C5 (amended): Close of the broker-backed queue is idempotent —
a first and a second call both return nil — but the first Close of the in-memory
queue returns nil and any further Close panics. -/
theorem C5_close_second_call (mq : MemoryQueue) (rq : RabbitMQQueueState)
    (h : mq.closed = false) :
    MemoryQueue.Close mq = .ok ({ mq with closed := true }, none)
    ∧ (∀ mq2 : MemoryQueue, mq2.closed = true → MemoryQueue.Close mq2 = .panicked)
    ∧ (RabbitMQQueue.Close rq).2 = none
    ∧ (RabbitMQQueue.Close (RabbitMQQueue.Close rq).1).2 = none := by
  refine ⟨by simp [MemoryQueue.Close, h], fun mq2 h2 => by simp [MemoryQueue.Close, h2], ?_, ?_⟩
  · by_cases hc : rq.closedSignal <;> simp [RabbitMQQueue.Close, hc]
  · by_cases hc : rq.closedSignal <;> simp [RabbitMQQueue.Close, hc]

/-- Witness for C5_close_second_call at a fresh queue of capacity 10 and
an open RabbitMQ state. -/
theorem C5_close_second_call_witness :
    (NewMemoryQueue 10).closed = false
    ∧ (MemoryQueue.Close (NewMemoryQueue 10) =
        .ok ({ NewMemoryQueue 10 with closed := true }, none)
      ∧ (∀ mq2 : MemoryQueue, mq2.closed = true → MemoryQueue.Close mq2 = .panicked)
      ∧ (RabbitMQQueue.Close { closedSignal := false }).2 = none
      ∧ (RabbitMQQueue.Close (RabbitMQQueue.Close { closedSignal := false }).1).2 = none) :=
  ⟨rfl, C5_close_second_call (NewMemoryQueue 10) { closedSignal := false } rfl⟩

/-- Claim C9 counterexample: after Close of a fresh capacity-10 queue,
Enqueue of a concrete job panics (send on a closed channel) instead of
returning an error. -/
theorem C9_enqueue_after_close_counterexample :
    MemoryQueue.Close (NewMemoryQueue 10) =
      .ok ({ buffer := [], capacity := 10, closed := true }, none)
    ∧ MemoryQueue.Enqueue { buffer := [], capacity := 10, closed := true } job0 = .panicked := by
  decide

/-- Claim C9 (amended): calling Enqueue on the in-memory queue after Close
panics — the send case of the select on the closed channel is ready and chosen
over the default branch — for every job, buffer contents and capacity. -/
theorem C9_enqueue_after_close_panics (mq : MemoryQueue) (job : TranscriptionJob)
    (h : mq.closed = true) : MemoryQueue.Enqueue mq job = .panicked := by
  simp [MemoryQueue.Enqueue, h]

/-- Witness for C9_enqueue_after_close_panics at a closed empty queue. -/
theorem C9_enqueue_after_close_panics_witness :
    ({ buffer := [], capacity := 10, closed := true } : MemoryQueue).closed = true
    ∧ MemoryQueue.Enqueue { buffer := [], capacity := 10, closed := true } job0 = .panicked :=
  ⟨rfl, C9_enqueue_after_close_panics { buffer := [], capacity := 10, closed := true } job0 rfl⟩

/-- Claim C3: at duration 1200 s and segment length 600 s (exact multiple,
m = 2) Split returns three segments, not two, and the last one is the
zero-length tail [1200, 1200]: segmentCount = int(1200)/600 + 1 = 3. -/
theorem C3_exact_multiple_zero_length_tail :
    AudioSplitter.Split 600 1200 =
      [ { index := 0, start := 0, endSec := 600 },
        { index := 1, start := 600, endSec := 1200 },
        { index := 2, start := 1200, endSec := 1200 } ]
    ∧ (AudioSplitter.Split 600 1200).length ≠ 2 := by
  have hcount : (⌊(1200 : ℚ)⌋).toNat / 600 + 1 = 3 := by norm_num; rfl
  have hsplit : AudioSplitter.Split 600 1200 =
      [ { index := 0, start := 0, endSec := 600 },
        { index := 1, start := 600, endSec := 1200 },
        { index := 2, start := 1200, endSec := 1200 } ] := by
    unfold AudioSplitter.Split
    rw [if_neg (by norm_num)]
    simp only [hcount]
    simp only [show (3 : Nat) = 2 + 1 from rfl, List.range_succ, List.range_zero,
      List.map_append, List.map_cons, List.map_nil, List.nil_append, List.cons_append]
    norm_num
  exact ⟨hsplit, by rw [hsplit]; decide⟩

/-- Claim C4 counterexample: the stop branch taken with an empty batch and
one job still in the sync queue: the worker exits having flushed nothing,
leaving the queued job behind. -/
theorem C4_stop_leaves_queue_unflushed :
    syncWorkerStep { batch := [], queue := [job0], flushed := [], exited := false } .stop
      = { batch := [], queue := [job0], flushed := [], exited := true } := by
  decide

/-- Claim C4 (amended): on the close signal the sync worker flushes exactly
its accumulated batch, once, and exits; items still in the sync queue are
not flushed by the worker and remain in the queue. -/
theorem C4_stop_flushes_batch_once (st : SyncWorkerState) (h : st.exited = false) :
    (syncWorkerStep st .stop).flushed = st.flushed ++ st.batch
    ∧ (syncWorkerStep st .stop).queue = st.queue
    ∧ (syncWorkerStep st .stop).exited = true := by
  simp [syncWorkerStep, h]

/-- Witness for C4_stop_flushes_batch_once: batch [job0], queue [jobWithTag]. -/
theorem C4_stop_flushes_batch_once_witness :
    ({ batch := [job0], queue := [jobWithTag], flushed := [], exited := false } :
        SyncWorkerState).exited = false
    ∧ ((syncWorkerStep { batch := [job0], queue := [jobWithTag], flushed := [], exited := false }
          .stop).flushed = [] ++ [job0]
      ∧ (syncWorkerStep { batch := [job0], queue := [jobWithTag], flushed := [], exited := false }
          .stop).queue = [jobWithTag]
      ∧ (syncWorkerStep { batch := [job0], queue := [jobWithTag], flushed := [], exited := false }
          .stop).exited = true) :=
  ⟨rfl, C4_stop_flushes_batch_once
    { batch := [job0], queue := [jobWithTag], flushed := [], exited := false } rfl⟩

/-- Claim C1 counterexample: the mutator keeps job-1 pending, yet when the
hot-tier update fails the hybrid Update falls back to a direct cold-tier
update — the cold tier changes on a non-terminal update. -/
theorem C1_fallback_writes_cold_tier :
    (bumpProgress job0).status = JobStatus.pending
    ∧ (HybridJobStore.Update true hybridSt0 "job-1" bumpProgress).1.db ≠ hybridSt0.db := by
  decide

/-- Claim C1 (amended): when the hot-tier update succeeds — the hot tier
is reachable and holds the job — and the mutator leaves the job in a
non-terminal status, neither the cold tier nor the sync queue changes and
Update returns nil.  (When the hot-tier update fails, the mutator is
instead applied directly to the cold tier, whatever the status.) -/
theorem C1_nonterminal_update_skips_cold_tier (st : HybridState) (jobID : String)
    (updateFn : TranscriptionJob → TranscriptionJob) (j : TranscriptionJob)
    (hj : lookupJob st.redis jobID = some j)
    (hnt : (updateFn j).status = JobStatus.pending
         ∨ (updateFn j).status = JobStatus.processing) :
    (HybridJobStore.Update false st jobID updateFn).1.db = st.db
    ∧ (HybridJobStore.Update false st jobID updateFn).1.syncQueue = st.syncQueue
    ∧ (HybridJobStore.Update false st jobID updateFn).2 = none := by
  have hcold : ¬((updateFn j).status = JobStatus.completed
              ∨ (updateFn j).status = JobStatus.failed) := by
    rcases hnt with h | h <;> simp [h]
  simp [HybridJobStore.Update, tierUpdate, hj, lookupJob, hcold]

/-- Witness for C1_nonterminal_update_skips_cold_tier: job-1 pending in
both tiers, progress-only mutator. -/
theorem C1_nonterminal_update_skips_cold_tier_witness :
    lookupJob hybridSt0.redis "job-1" = some job0
    ∧ ((bumpProgress job0).status = JobStatus.pending
       ∨ (bumpProgress job0).status = JobStatus.processing)
    ∧ ((HybridJobStore.Update false hybridSt0 "job-1" bumpProgress).1.db = hybridSt0.db
      ∧ (HybridJobStore.Update false hybridSt0 "job-1" bumpProgress).1.syncQueue
          = hybridSt0.syncQueue
      ∧ (HybridJobStore.Update false hybridSt0 "job-1" bumpProgress).2 = none) :=
  ⟨by decide, Or.inl (by decide),
    C1_nonterminal_update_skips_cold_tier hybridSt0 "job-1" bumpProgress job0
      (by decide) (Or.inl (by decide))⟩

/-- Claim C6 counterexample: the engine succeeds with empty text; the
record the worker leaves behind is completed with an empty result_text. -/
theorem C6_completed_with_empty_result :
    (Worker.processJobFinal job0 [33] (.ok emptyEngineResult) 99).status = JobStatus.completed
    ∧ (Worker.processJobFinal job0 [33] (.ok emptyEngineResult) 99).result = "" := by
  decide

/-- Claim C6 (amended): the record written after processJob returns, when
completed, has progress 100 and completed_at set to the (non-zero) write
time, and its result_text equals exactly the text the engine returned —
which is non-empty only when the engine text is. -/
theorem C6_completed_record_fields (job : TranscriptionJob) (progressUpdates : List Int)
    (outcome : Except String EngineResult) (now : Nat) (hnow : now ≠ 0)
    (hc : (Worker.processJobFinal job progressUpdates outcome now).status
        = JobStatus.completed) :
    (Worker.processJobFinal job progressUpdates outcome now).progress = 100
    ∧ (Worker.processJobFinal job progressUpdates outcome now).completedAt = now
    ∧ (Worker.processJobFinal job progressUpdates outcome now).completedAt ≠ 0
    ∧ ∃ r, outcome = .ok r
        ∧ (Worker.processJobFinal job progressUpdates outcome now).result = r.text := by
  cases outcome with
  | error e => simp [Worker.processJobFinal] at hc
  | ok r => exact ⟨rfl, rfl, hnow, r, rfl, rfl⟩

/-- Witness for C6_completed_record_fields: job0 completed at time 99 with
a concrete engine result. -/
theorem C6_completed_record_fields_witness :
    (99 : Nat) ≠ 0
    ∧ (Worker.processJobFinal job0 [33] (.ok emptyEngineResult) 99).status
        = JobStatus.completed
    ∧ ((Worker.processJobFinal job0 [33] (.ok emptyEngineResult) 99).progress = 100
      ∧ (Worker.processJobFinal job0 [33] (.ok emptyEngineResult) 99).completedAt = 99
      ∧ (Worker.processJobFinal job0 [33] (.ok emptyEngineResult) 99).completedAt ≠ 0
      ∧ ∃ r, (Except.ok emptyEngineResult : Except String EngineResult) = .ok r
          ∧ (Worker.processJobFinal job0 [33] (.ok emptyEngineResult) 99).result = r.text) :=
  ⟨by decide, rfl,
    C6_completed_record_fields job0 [33] (.ok emptyEngineResult) 99 (by decide) rfl⟩

/-- Claim C8 counterexample: the Redis store does not round-trip broker
acknowledgement metadata: Save of a job with DeliveryTag 7 followed by
Get returns the job with DeliveryTag 0 and a nil delivery handle, which
differs from the saved job. -/
theorem C8_redis_drops_delivery_tag :
    RedisJobStore.Get (RedisJobStore.Save redisSt0 jobWithTag).1 jobWithTag.jobID
      = .ok (marshalRoundTrip jobWithTag)
    ∧ marshalRoundTrip jobWithTag ≠ jobWithTag := by
  refine ⟨?_, by decide⟩
  simp [RedisJobStore.Get, RedisJobStore.Save, lookupJob]

/-- Claim C8 (amended): for every job j — including jobs carrying
broker-acknowledgement metadata — Save-then-Get returns j unchanged in
all fields in the in-memory store.  In the Redis store Save-then-Get
returns the JSON round-trip of j, which equals j in all fields if and
only if j carries no broker-acknowledgement metadata (DeliveryTag 0 and
a nil delivery handle). -/
theorem C8_save_get_roundtrip (jobs : List (String × TranscriptionJob)) (st : RedisState)
    (j : TranscriptionJob) :
    JobStore.Get (JobStore.Save jobs j).1 j.jobID = .ok j
    ∧ RedisJobStore.Get (RedisJobStore.Save st j).1 j.jobID = .ok (marshalRoundTrip j)
    ∧ (RedisJobStore.Get (RedisJobStore.Save st j).1 j.jobID = .ok j
        ↔ j.deliveryTag = 0 ∧ j.rabbitMQDelivery = none) := by
  have h1 : JobStore.Get (JobStore.Save jobs j).1 j.jobID = .ok j := by
    simp [JobStore.Get, JobStore.Save, lookupJob]
  have h2 : RedisJobStore.Get (RedisJobStore.Save st j).1 j.jobID
      = .ok (marshalRoundTrip j) := by
    simp [RedisJobStore.Get, RedisJobStore.Save, lookupJob]
  refine ⟨h1, h2, ?_⟩
  rw [h2]
  constructor
  · intro h
    have hmr : marshalRoundTrip j = j := Except.ok.inj h
    constructor
    · have := congrArg TranscriptionJob.deliveryTag hmr
      simpa [marshalRoundTrip] using this.symm
    · have := congrArg TranscriptionJob.rabbitMQDelivery hmr
      simpa [marshalRoundTrip] using this.symm
  · intro h
    have hmr : marshalRoundTrip j = j := by
      unfold marshalRoundTrip
      cases j
      simp only [TranscriptionJob.mk.injEq] at h ⊢
      simp_all
    rw [hmr]

/-- Witness for C8_save_get_roundtrip at jobWithTag, a job that does carry
broker metadata: the in-memory round-trip still returns it unchanged, and
the iff makes the Redis round-trip differ from it. -/
theorem C8_save_get_roundtrip_witness :
    JobStore.Get (JobStore.Save [] jobWithTag).1 jobWithTag.jobID = .ok jobWithTag
    ∧ RedisJobStore.Get (RedisJobStore.Save redisSt0 jobWithTag).1 jobWithTag.jobID
        = .ok (marshalRoundTrip jobWithTag)
    ∧ (RedisJobStore.Get (RedisJobStore.Save redisSt0 jobWithTag).1 jobWithTag.jobID
        = .ok jobWithTag
       ↔ jobWithTag.deliveryTag = 0 ∧ jobWithTag.rabbitMQDelivery = none) :=
  C8_save_get_roundtrip [] redisSt0 jobWithTag

/-- The errors slice built by the collector fold extends the accumulator
with the arrival-ordered (index, message) pairs of the errored results. -/
theorem foldl_collectStep_errors (arrivals : List ProcessResult)
    (acc : List (Nat × String) × List (Nat × String)) :
    (arrivals.foldl collectStep acc).2 = acc.2 ++ arrivals.filterMap errEntry := by
  induction arrivals generalizing acc with
  | nil => simp
  | cons r rest ih =>
    rw [List.foldl_cons, List.filterMap_cons, ih]
    cases hr : r.error with
    | none => simp [collectStep, errEntry, hr]
    | some e => simp [collectStep, errEntry, hr]

/-- Specialisation to the empty initial accumulator of the collector. -/
theorem collectLoop_errors (arrivals : List ProcessResult) :
    (collectLoop arrivals).2 = arrivals.filterMap errEntry := by
  simpa using foldl_collectStep_errors arrivals ([], [])

/-- Claim C2 counterexample: the errored results for segments 2 and 1
arrive in that order; Transcribe reports the error of segment 2 although
segment 1 — the lowest errored index — also errored. -/
theorem C2_error_not_lowest_index :
    transcribeCollect [resA, resB] = .error (2, "boom2")
    ∧ resB.segmentIndex < resA.segmentIndex
    ∧ resB.error = some "boom1" := by
  refine ⟨?_, by decide, by decide⟩
  rfl

/-- Claim C2 (amended): whenever some collected result carries an error,
Transcribe returns an error, and the (index, message) it reports is the
first errored result in arrival order — not necessarily the one with the
lowest segment index. -/
theorem C2_first_arrival_error_returned (arrivals : List ProcessResult)
    (idx : Nat) (msg : String) (rest : List (Nat × String))
    (h : arrivals.filterMap errEntry = (idx, msg) :: rest) :
    transcribeCollect arrivals = .error (idx, msg) := by
  unfold transcribeCollect
  have herr : (collectLoop arrivals).2 = (idx, msg) :: rest := by
    rw [collectLoop_errors, h]
  rcases hcl : collectLoop arrivals with ⟨res, errs⟩
  rw [hcl] at herr
  simp only at herr
  subst herr
  rfl

/-- Witness for C2_first_arrival_error_returned at the two-error arrival
order [segment 2, segment 1]. -/
theorem C2_first_arrival_error_returned_witness :
    [resA, resB].filterMap errEntry = (2, "boom2") :: [(1, "boom1")]
    ∧ transcribeCollect [resA, resB] = .error (2, "boom2") :=
  ⟨by decide, C2_first_arrival_error_returned [resA, resB] 2 "boom2" [(1, "boom1")] (by decide)⟩

/-- The retry loop invokes the remote service at most `fuel` times. -/
theorem retryLoop_calls_le_fuel (t : Nat → AttemptOutcome) (ce cw : Nat → Bool)
    (m : Nat) : ∀ fuel i le, (retryLoop t ce cw m fuel i le).calls ≤ fuel := by
  intro fuel
  induction fuel with
  | zero => intro i le; simp [retryLoop]
  | succ nf ih =>
    intro i le
    cases ht : t i with
    | success s => simp [retryLoop, ht]
    | failure e =>
      by_cases h1 : ce i = true
      · simp [retryLoop, ht, h1]
      · by_cases h2 : i < m - 1
        · by_cases h3 : cw i = true
          · simp [retryLoop, ht, h1, h2, h3]
          · have hrest := ih (i + 1) (some e)
            simp [retryLoop, ht, h1, h2, h3]
            omega
        · simp [retryLoop, ht, h1, h2]

/-- The completed backoff waits of a loop started at attempt i are the
consecutive powers 2^i, 2^(i+1), … for some count n. -/
theorem retryLoop_waits_shape (t : Nat → AttemptOutcome) (ce cw : Nat → Bool)
    (m : Nat) : ∀ fuel i le, ∃ n, (retryLoop t ce cw m fuel i le).waits
      = (List.range n).map (fun k => 2 ^ (i + k)) := by
  intro fuel
  induction fuel with
  | zero => intro i le; exact ⟨0, by simp [retryLoop]⟩
  | succ nf ih =>
    intro i le
    cases ht : t i with
    | success s => exact ⟨0, by simp [retryLoop, ht]⟩
    | failure e =>
      by_cases h1 : ce i = true
      · exact ⟨0, by simp [retryLoop, ht, h1]⟩
      · by_cases h2 : i < m - 1
        · by_cases h3 : cw i = true
          · exact ⟨0, by simp [retryLoop, ht, h1, h2, h3]⟩
          · obtain ⟨n, hn⟩ := ih (i + 1) (some e)
            refine ⟨n + 1, ?_⟩
            have hfg : ((fun k => 2 ^ (i + k)) ∘ Nat.succ) = (fun k => 2 ^ (i + 1 + k)) := by
              funext k
              simp only [Function.comp]
              congr 1
              omega
            simp only [retryLoop, ht, h1, h2, h3, if_false, if_true, if_neg, if_pos,
              List.range_succ_eq_map, List.map_cons, List.map_map, hfg]
            simp [retryLoop, ht, h1, h2, h3, hn, List.range_succ_eq_map, List.map_map, hfg]
        · exact ⟨0, by simp [retryLoop, ht, h1, h2]⟩

/-- Once cancellation is observable at the post-attempt check of attempt
j, no attempt beyond the (j+1)-st is ever made. -/
theorem retryLoop_cancel_calls (t : Nat → AttemptOutcome) (ce cw : Nat → Bool)
    (m j : Nat) (hj : ce j = true) :
    ∀ fuel i le, i ≤ j → (retryLoop t ce cw m fuel i le).calls ≤ j - i + 1 := by
  intro fuel
  induction fuel with
  | zero => intro i le hij; simp [retryLoop]
  | succ nf ih =>
    intro i le hij
    cases ht : t i with
    | success s => simp [retryLoop, ht]
    | failure e =>
      by_cases h1 : ce i = true
      · simp [retryLoop, ht, h1]
      · have hne : i ≠ j := fun hEq => h1 (hEq ▸ hj)
        by_cases h2 : i < m - 1
        · by_cases h3 : cw i = true
          · simp [retryLoop, ht, h1, h2, h3]
          · have hrest := ih (i + 1) (some e) (by omega)
            simp [retryLoop, ht, h1, h2, h3]
            omega
        · simp [retryLoop, ht, h1, h2]

/-- Once cancellation fires during the backoff wait after attempt j, no
attempt beyond the (j+1)-st is ever made. -/
theorem retryLoop_wait_cancel_calls (t : Nat → AttemptOutcome) (ce cw : Nat → Bool)
    (m j : Nat) (hj : cw j = true) :
    ∀ fuel i le, i ≤ j → (retryLoop t ce cw m fuel i le).calls ≤ j - i + 1 := by
  intro fuel
  induction fuel with
  | zero => intro i le hij; simp [retryLoop]
  | succ nf ih =>
    intro i le hij
    cases ht : t i with
    | success s => simp [retryLoop, ht]
    | failure e =>
      by_cases h1 : ce i = true
      · simp [retryLoop, ht, h1]
      · by_cases h2 : i < m - 1
        · by_cases h3 : cw i = true
          · simp [retryLoop, ht, h1, h2, h3]
          · have hne : i ≠ j := fun hEq => h3 (hEq ▸ hj)
            have hrest := ih (i + 1) (some e) (by omega)
            simp [retryLoop, ht, h1, h2, h3]
            omega
        · simp [retryLoop, ht, h1, h2]

/-- If every attempt up to j fails, j is within the retry bound, and
cancellation is observable at the check after attempt j, the loop returns
the cancellation outcome. -/
theorem retryLoop_cancel_outcome (t : Nat → AttemptOutcome) (ce cw : Nat → Bool)
    (m j : Nat) (hj : ce j = true) (hjm : j < m)
    (hfail : ∀ k, k ≤ j → ∃ e, t k = .failure e) :
    ∀ fuel i le, i ≤ j → j - i < fuel →
      (retryLoop t ce cw m fuel i le).outcome = .cancelled := by
  intro fuel
  induction fuel with
  | zero => intro i le hij hf; omega
  | succ nf ih =>
    intro i le hij hf
    obtain ⟨e, he⟩ := hfail i hij
    by_cases h1 : ce i = true
    · simp [retryLoop, he, h1]
    · have hne : i ≠ j := fun hEq => h1 (hEq ▸ hj)
      have h2 : i < m - 1 := by omega
      by_cases h3 : cw i = true
      · simp [retryLoop, he, h1, h2, h3]
      · have hrec := ih (i + 1) (some e) (by omega) (by omega)
        simp [retryLoop, he, h1, h2, h3, hrec]

/-- Claim C7: for every retry bound R, (1) the remote service is invoked
at most R times; (2) the completed backoff waits are 2^0, 2^1, … seconds
in order, i.e. the wait following the i-th failed attempt is 2^i seconds;
(3) once cancellation is observed at the check after attempt j, and (4)
once it fires during the wait after attempt j, no attempt beyond j+1 is
made; and (5) when cancellation is observed at the check after attempt j,
all attempts so far having failed and j being within the bound, the call
returns the cancellation error. -/
theorem C7_retry_policy (t : Nat → AttemptOutcome) (ce cw : Nat → Bool) (R : Nat) :
    (WhisperClient.TranscribeWithRetry t ce cw R).calls ≤ R
    ∧ (∃ n, (WhisperClient.TranscribeWithRetry t ce cw R).waits
        = (List.range n).map (fun k => 2 ^ k))
    ∧ (∀ j, ce j = true → (WhisperClient.TranscribeWithRetry t ce cw R).calls ≤ j + 1)
    ∧ (∀ j, cw j = true → (WhisperClient.TranscribeWithRetry t ce cw R).calls ≤ j + 1)
    ∧ (∀ j, j < R → ce j = true → (∀ k, k ≤ j → ∃ e, t k = .failure e) →
        (WhisperClient.TranscribeWithRetry t ce cw R).outcome = .cancelled) := by
  unfold WhisperClient.TranscribeWithRetry
  refine ⟨retryLoop_calls_le_fuel t ce cw R R 0 none, ?_, ?_, ?_, ?_⟩
  · obtain ⟨n, hn⟩ := retryLoop_waits_shape t ce cw R R 0 none
    exact ⟨n, by simpa using hn⟩
  · intro j hj
    have := retryLoop_cancel_calls t ce cw R j hj R 0 none (Nat.zero_le j)
    omega
  · intro j hj
    have := retryLoop_wait_cancel_calls t ce cw R j hj R 0 none (Nat.zero_le j)
    omega
  · intro j hjR hj hfail
    exact retryLoop_cancel_outcome t ce cw R j hj hjR hfail R 0 none (Nat.zero_le j) (by omega)

/-- Witness for C7_retry_policy: an always-failing service with
cancellation observed from the check after attempt 1 on and R = 3. -/
theorem C7_retry_policy_witness :
    (WhisperClient.TranscribeWithRetry alwaysFailOracle cancelFromOne neverInWait 3).calls ≤ 3
    ∧ cancelFromOne 1 = true
    ∧ (WhisperClient.TranscribeWithRetry alwaysFailOracle cancelFromOne neverInWait 3).calls ≤ 2
    ∧ (1 < 3 ∧ (∀ k, k ≤ 1 → ∃ e, alwaysFailOracle k = .failure e))
    ∧ (WhisperClient.TranscribeWithRetry alwaysFailOracle cancelFromOne neverInWait 3).outcome
        = .cancelled := by
  have h := C7_retry_policy alwaysFailOracle cancelFromOne neverInWait 3
  exact ⟨h.1, rfl, h.2.2.1 1 rfl, ⟨by omega, fun k _ => ⟨"超时", rfl⟩⟩,
    h.2.2.2.2 1 (by omega) rfl (fun k _ => ⟨"超时", rfl⟩)⟩

end VoiceFlow
